import Mathlib

/-!
Verification of the Jobly data-access layer.

The JavaScript source is shallowly embedded: JS objects whose iteration
order matters (`dataToUpdate`) become association lists in iteration
order with distinct keys, JS values become the inductive `JSValue`,
thrown exceptions become `Except JsErr`, and database calls are recorded
as a trace of issued SQL strings so that "no statement was executed" is
expressible.
-/

/-- JavaScript runtime values, as far as this repository manipulates them:
`undefined`, `null`, booleans, numbers (modelled as integers; the code
never does fractional arithmetic) and strings, plus arrays of values. -/
inductive JSValue where
  | undefined
  | null
  | bool (b : Bool)
  | num (n : Int)
  | str (s : String)
  | arr (xs : List JSValue)
deriving Repr

/-- JavaScript truthiness for the values above: `undefined`, `null`,
`false`, `0` and `""` are falsy, everything else truthy. -/
def jsTruthy : JSValue → Bool
  | .undefined => false
  | .null => false
  | .bool b => b
  | .num n => n != 0
  | .str s => s != ""
  | .arr _ => true

/-- Errors thrown by the embedded code: `BadRequestError`,
`NotFoundError` (from expressError.js) and the runtime `TypeError`. -/
inductive JsErr where
  | badRequest (msg : String)
  | notFound (msg : String)
  | typeError (msg : String)
deriving Repr, DecidableEq

/-- First-match lookup in a string-to-string association list; `none`
models a JS property access yielding `undefined`. -/
def lookupStr : List (String × String) → String → Option String
  | [], _ => none
  | (k2, v) :: rest, k => if k2 = k then some v else lookupStr rest k

/-- The column-name resolution `jsToSql[colName] || colName` from
src/helpers/sql.js line 20: property access gives the stored string when
the key is present and `undefined` otherwise, and `||` keeps the left
operand only when it is truthy (a non-empty string). -/
def resolveCol (jsToSql : List (String × String)) (colName : String) : String :=
  match lookupStr jsToSql colName with
  | some c => if c = "" then colName else c
  | none => colName

/-- The array built at src/helpers/sql.js lines 19-21:
`keys.map((colName, idx) => `"${jsToSql[colName] || colName}"=$${idx + 1}`)`. -/
def sqlCols (keys : List String) (jsToSql : List (String × String)) : List String :=
  keys.enum.map (fun p =>
    "\"" ++ resolveCol jsToSql p.2 ++ "\"=$" ++ toString (p.1 + 1))

/-- The object `{ setCols, values }` returned by `sqlForPartialUpdate`. -/
structure SqlUpdateResult where
  setCols : String
  values : List JSValue
deriving Repr

/-- src/helpers/sql.js `sqlForPartialUpdate(dataToUpdate, jsToSql)`.
`dataToUpdate` is the JS object in key-iteration order (keys distinct),
`jsToSql` the translation object. Throws `BadRequestError('No data')`
when `Object.keys(dataToUpdate)` is empty; otherwise returns
`{ setCols: cols.join(', '), values: Object.values(dataToUpdate) }`. -/
def sqlForPartialUpdate (dataToUpdate : List (String × JSValue))
    (jsToSql : List (String × String)) : Except JsErr SqlUpdateResult :=
  let keys := dataToUpdate.map Prod.fst
  if keys.length = 0 then .error (.badRequest "No data")
  else
    let cols := sqlCols keys jsToSql
    .ok { setCols := String.intercalate ", " cols,
          values := dataToUpdate.map Prod.snd }

example :
    sqlForPartialUpdate
      [("firstName", .str "Miss"), ("lastName", .str "Kitty")]
      [("firstName", "first_name"), ("lastName", "last_name")] =
    .ok { setCols := "\"first_name\"=$1, \"last_name\"=$2",
          values := [.str "Miss", .str "Kitty"] } := rfl

example :
    sqlForPartialUpdate [("age", .num 32)] [] =
    .ok { setCols := "\"age\"=$1", values := [.num 32] } := rfl

/-- Test whether `pat` is an initial segment of `s`. -/
def leadsWith : List Char → List Char → Bool
  | _, [] => true
  | [], _ :: _ => false
  | c :: cs, d :: ds => c == d && leadsWith cs ds

/-- Test whether `pat` occurs contiguously in `s`. -/
def containsSub : List Char → List Char → Bool
  | [], pat => leadsWith [] pat
  | c :: cs, pat => leadsWith (c :: cs) pat || containsSub cs pat

/-- The characters after the first occurrence of `pat` in `s`, if any. -/
def afterSub : List Char → List Char → Option (List Char)
  | [], pat => if leadsWith [] pat then some [] else none
  | c :: cs, pat =>
    if leadsWith (c :: cs) pat then some ((c :: cs).drop pat.length)
    else afterSub cs pat

/-- The first token following `WHERE ` in a SQL string: the column the
query filters on (for the single-condition queries of this repository). -/
def whereColumn (q : String) : Option String :=
  (afterSub q.data "WHERE ".data).map
    (fun r => String.mk (r.takeWhile (fun c => c ≠ ' ')))

/-- The SQL text of the lookup-by-id query in `Job.get`
(src/models/job.js lines 80-84), exactly as the template literal reads. -/
def jobsGetQuery : String :=
  "SELECT id, title, salary, equity, company_handle AS \"companyHandle\"\n      FROM jobs\n      WHERE if = $1"

/-- JS property access on an object given as a field list: the stored
value when the field exists, `undefined` otherwise. -/
def jsGetField : List (String × JSValue) → String → JSValue
  | [], _ => .undefined
  | (k2, v) :: rest, k => if k2 = k then v else jsGetField rest k

/-- The field list of the object `{ setCols, values }` that
`sqlForPartialUpdate` returns, as `Job.update` destructures it. -/
def sqlUpdateResultFields (r : SqlUpdateResult) : List (String × JSValue) :=
  [("setCols", .str r.setCols), ("values", .arr r.values)]

/-- Reading `.length` off a JS value: throws `TypeError` on `undefined`
and `null`, yields the length for arrays and strings, and `undefined`
for numbers and booleans (which have no `length` property). -/
def jsLengthProp : JSValue → Except JsErr JSValue
  | .undefined =>
    .error (.typeError "Cannot read properties of undefined (reading 'length')")
  | .null =>
    .error (.typeError "Cannot read properties of null (reading 'length')")
  | .arr xs => .ok (.num xs.length)
  | .str s => .ok (.num s.length)
  | .num _ => .ok .undefined
  | .bool _ => .ok .undefined

/-- Template-literal stringification `${v}` for the values this
repository interpolates (strings, numbers, `undefined`, `null`,
booleans; it never interpolates an array). -/
def jsTemplate : JSValue → String
  | .str s => s
  | .num n => toString n
  | .undefined => "undefined"
  | .null => "null"
  | .bool b => toString b
  | .arr _ => ""

/-- JS `v + 1` coerced to string, for the values `jsLengthProp` can
yield: `undefined + 1` is `NaN`, a number adds numerically, the
remaining cases follow JS coercion. -/
def jsPlusOneStr : JSValue → String
  | .num n => toString (n + 1)
  | .undefined => "NaN"
  | .null => "1"
  | .bool true => "2"
  | .bool false => "1"
  | .str s => s ++ "1"
  | .arr _ => "NaN"

/-- JS spread `[...v]`: arrays and strings are iterable, everything else
throws `TypeError`. -/
def jsSpread : JSValue → Except JsErr (List JSValue)
  | .arr xs => .ok xs
  | .str s => .ok (s.data.map (fun c => .str (String.mk [c])))
  | _ => .error (.typeError "value is not iterable")

/-- src/models/job.js `Job.update(id, data)`. The database is a
parameter mapping an issued SQL string and its bound parameters to the
returned rows; the second component of the result is the trace of SQL
statements actually issued, so an empty trace means the database was
never touched. The source destructures `{ setCols, vals }` from
`sqlForPartialUpdate(data, {})` and then evaluates `vals.length`. -/
def jobUpdate (db : String → List JSValue → List JSValue) (id : JSValue)
    (data : List (String × JSValue)) : Except JsErr JSValue × List String :=
  match sqlForPartialUpdate data [] with
  | .error e => (.error e, [])
  | .ok r =>
    let fields := sqlUpdateResultFields r
    let setCols := jsGetField fields "setCols"
    let vals := jsGetField fields "vals"
    match jsLengthProp vals with
    | .error e => (.error e, [])
    | .ok len =>
      let idIndex := "$" ++ jsPlusOneStr len
      let querySql := "UPDATE jobs\n    SET " ++ jsTemplate setCols ++
        "\n    WHERE id = " ++ idIndex ++
        "\n    RETURNING id, title, salary, equity, company_handle AS \"companyHandle\""
      match jsSpread vals with
      | .error e => (.error e, [])
      | .ok spreadVals =>
        let rows := db querySql (spreadVals ++ [id])
        match rows with
        | [] => (.error (.notFound ("Could not find job " ++ jsTemplate id)), [querySql])
        | job :: _ => (.ok job, [querySql])

/-- How a JS binding was declared: `const` bindings reject reassignment. -/
inductive BindKind where
  | constant
  | mutable
deriving Repr, DecidableEq

/-- A JS variable binding: its declaration kind and current value. -/
structure Binding where
  kind : BindKind
  val : String
deriving Repr, DecidableEq

/-- JS assignment to a binding: reassigning a `const` binding throws
`TypeError: Assignment to constant variable.`; a `let` binding updates. -/
def jsAssign (b : Binding) (v : String) : Except JsErr Binding :=
  match b.kind with
  | .constant => .error (.typeError "Assignment to constant variable.")
  | .mutable => .ok { b with val := v }

/-- Test for the comparison `v !== undefined`: true exactly on `undefined`. -/
def jsIsUndefined : JSValue → Bool
  | .undefined => true
  | _ => false

/-- Test for the strict comparison `v === true`: holds only for the
boolean `true`. -/
def jsStrictTrue : JSValue → Bool
  | .bool true => true
  | _ => false

/-- The destructured optional filters of `Job.findAll`; an absent field
is `undefined`. -/
structure JobFilters where
  minSalary : JSValue
  hasEquity : JSValue
  title : JSValue

/-- src/models/job.js `Job.findAll({minSalary, hasEquity, title})`.
The source declares `const query = ...` and later executes
`query += ' WHERE ...'` (conditionally) and `query += ' ORDER BY title'`
(unconditionally); `+=` is an assignment to the binding, modelled with
`jsAssign`. The trace component lists the SQL statements issued. -/
def jobFindAll (db : String → List JSValue → List JSValue) (f : JobFilters) :
    Except JsErr (List JSValue) × List String :=
  let query : Binding :=
    { kind := .constant,
      val := "SELECT j.id, j.title, j.salary, j.equity, j.company_handle AS \"companyHandle\", c.name AS \"companyName\"\n    FROM jobs j\n    LEFT JOIN companies AS c on c.handle = j.company_handle" }
  let qv1 : List JSValue :=
    if jsIsUndefined f.minSalary then [] else [f.minSalary]
  let wc1 : List String :=
    if jsIsUndefined f.minSalary then []
    else ["salary >= $" ++ toString qv1.length]
  let wc2 : List String :=
    if jsStrictTrue f.hasEquity then wc1 ++ ["equity > 0"] else wc1
  let qv3 : List JSValue :=
    if jsIsUndefined f.title then qv1
    else qv1 ++ [.str ("%" ++ jsTemplate f.title ++ "%")]
  let wc3 : List String :=
    if jsIsUndefined f.title then wc2
    else wc2 ++ ["title ILIKE $" ++ toString qv3.length]
  let afterWhere : Except JsErr Binding :=
    if wc3.length > 0 then
      jsAssign query (query.val ++ " WHERE " ++ String.intercalate " AND " wc3)
    else .ok query
  match afterWhere with
  | .error e => (.error e, [])
  | .ok q1 =>
    match jsAssign q1 (q1.val ++ " ORDER BY title") with
    | .error e => (.error e, [])
    | .ok q2 => (.ok (db q2.val qv3), [q2.val])

/-- Leading decimal digits of `s` as a number, `none` when `s` does not
start with a digit. -/
def parseDigits (s : List Char) : Option Nat :=
  let ds := s.takeWhile Char.isDigit
  if ds = [] then none
  else some (ds.foldl (fun a c => a * 10 + (c.toNat - 48)) 0)

/-- JS `parseInt` on the values this code passes it: numbers parse to
themselves, strings parse an optional sign and leading digits after
whitespace, everything else is `NaN` (`none`). -/
def parseIntJS : JSValue → Option Int
  | .num n => some n
  | .str s =>
    match s.data.dropWhile (fun c => c = ' ') with
    | '-' :: rest => (parseDigits rest).map (fun n => -(n : Int))
    | '+' :: rest => (parseDigits rest).map (fun n => (n : Int))
    | other => (parseDigits other).map (fun n => (n : Int))
  | _ => none

/-- JS `>` on two `parseInt` results: any comparison with `NaN` is false. -/
def jsGTNum : Option Int → Option Int → Bool
  | some a, some b => a > b
  | _, _ => false

/-- JS `.toLowerCase()`: defined on strings, throws `TypeError` on
anything else. -/
def jsToLowerCase : JSValue → Except JsErr String
  | .str s => .ok s.toLower
  | .undefined =>
    .error (.typeError "Cannot read properties of undefined (reading 'toLowerCase')")
  | .null =>
    .error (.typeError "Cannot read properties of null (reading 'toLowerCase')")
  | _ => .error (.typeError "toLowerCase is not a function")

/-- src/unnamed/part_000 `Company.findByFilters(minEmployees,
maxEmployees, nameLike)`. The min/max validation runs only when both
bounds are truthy, and each filter clause is appended only when its
argument is truthy; placeholder numbers are `queryParams.length` after
the corresponding push. The trace lists the SQL statements issued. -/
def companyFindByFilters (db : String → List JSValue → List JSValue)
    (minEmployees maxEmployees nameLike : JSValue) :
    Except JsErr (List JSValue) × List String :=
  if jsTruthy minEmployees && jsTruthy maxEmployees &&
      jsGTNum (parseIntJS minEmployees) (parseIntJS maxEmployees) then
    (.error (.badRequest "min employees cannot be greater than max employees"), [])
  else
    let q0 := "SELECT * FROM companies WHERE 1 = 1"
    let p1 : List JSValue :=
      if jsTruthy minEmployees then [minEmployees] else []
    let q1 :=
      if jsTruthy minEmployees then
        q0 ++ " AND num_employees >= $" ++ toString p1.length
      else q0
    let p2 :=
      if jsTruthy maxEmployees then p1 ++ [maxEmployees] else p1
    let q2 :=
      if jsTruthy maxEmployees then
        q1 ++ " AND num_employees <= $" ++ toString p2.length
      else q1
    match (if jsTruthy nameLike then Except.map some (jsToLowerCase nameLike)
           else .ok none) with
    | .error e => (.error e, [])
    | .ok lowered =>
      let p3 := match lowered with
        | some lo => p2 ++ [.str ("%" ++ lo ++ "%")]
        | none => p2
      let q3 := match lowered with
        | some _ => q2 ++ " AND LOWER(name) LIKE $" ++ toString p3.length
        | none => q2
      (.ok (db q3 p3), [q3])

/-! ## Helper lemmas -/

theorem sqlCols_length (keys : List String) (t : List (String × String)) :
    (sqlCols keys t).length = keys.length := by
  simp [sqlCols]

theorem sqlCols_get? (keys : List String) (t : List (String × String))
    (i : Nat) (k : String) (h : keys.get? i = some k) :
    (sqlCols keys t).get? i =
      some ("\"" ++ resolveCol t k ++ "\"=$" ++ toString (i + 1)) := by
  have h2 : keys[i]? = some k := by
    rw [← List.get?_eq_getElem?]
    exact h
  rw [List.get?_eq_getElem?]
  simp [sqlCols, List.getElem?_map, List.getElem?_enum, h2]

theorem sqlForPartialUpdate_ok (d : List (String × JSValue))
    (t : List (String × String)) (h : d ≠ []) :
    sqlForPartialUpdate d t =
      .ok { setCols := String.intercalate ", " (sqlCols (d.map Prod.fst) t),
            values := d.map Prod.snd } := by
  rw [sqlForPartialUpdate]
  simp [List.length_eq_zero, h]

/-! ## Claims about sqlForPartialUpdate -/

/-- C1: for every non-empty update-request map with N keys,
`sqlForPartialUpdate` returns exactly N assignment fragments and N
values, positionally aligned in the input's key-iteration order, and the
returned values are the original values, unmodified and untranslated. -/
theorem sqlForPartialUpdate_shape (d : List (String × JSValue))
    (t : List (String × String)) (h : d ≠ []) :
    sqlForPartialUpdate d t =
      .ok { setCols := String.intercalate ", " (sqlCols (d.map Prod.fst) t),
            values := d.map Prod.snd } ∧
    (sqlCols (d.map Prod.fst) t).length = d.length ∧
    (d.map Prod.snd).length = d.length ∧
    (∀ i k, (d.map Prod.fst).get? i = some k →
      (sqlCols (d.map Prod.fst) t).get? i =
        some ("\"" ++ resolveCol t k ++ "\"=$" ++ toString (i + 1))) := by
  refine ⟨sqlForPartialUpdate_ok d t h, ?_, ?_, ?_⟩
  · simp [sqlCols_length]
  · simp
  · intro i k hk
    exact sqlCols_get? _ t i k hk

/-- Witness for C1 at a concrete two-key input. -/
theorem sqlForPartialUpdate_shape_witness :
    sqlForPartialUpdate [("a", JSValue.num 1), ("b", JSValue.null)] [] =
      .ok { setCols := String.intercalate ", " (sqlCols ["a", "b"] []),
            values := [JSValue.num 1, JSValue.null] } :=
  (sqlForPartialUpdate_shape [("a", JSValue.num 1), ("b", JSValue.null)] []
    (List.cons_ne_nil _ _)).1

/-- C2: `sqlForPartialUpdate` fails exactly on the empty map, with the
`BadRequestError` and no produced result; every non-empty map (whatever
its values, `null`, `0` or `""` included) succeeds. -/
theorem sqlForPartialUpdate_empty_iff (d : List (String × JSValue))
    (t : List (String × String)) :
    (d = [] → sqlForPartialUpdate d t = .error (.badRequest "No data")) ∧
    (d ≠ [] → ∃ r, sqlForPartialUpdate d t = .ok r) ∧
    (∀ e, sqlForPartialUpdate d t = .error e → d = []) := by
  refine ⟨?_, ?_, ?_⟩
  · intro h
    subst h
    rfl
  · intro h
    exact ⟨_, sqlForPartialUpdate_ok d t h⟩
  · intro e he
    by_contra hne
    rw [sqlForPartialUpdate_ok d t hne] at he
    exact Except.noConfusion he

/-- Witness for C2: the empty map errors; maps whose values are `null`,
`0` and `""` all succeed. -/
theorem sqlForPartialUpdate_empty_iff_witness :
    sqlForPartialUpdate ([] : List (String × JSValue)) [] =
      .error (.badRequest "No data") ∧
    (∃ r, sqlForPartialUpdate [("a", JSValue.null)] [] = .ok r) ∧
    (∃ r, sqlForPartialUpdate [("b", JSValue.num 0)] [] = .ok r) ∧
    (∃ r, sqlForPartialUpdate [("c", JSValue.str "")] [] = .ok r) :=
  ⟨(sqlForPartialUpdate_empty_iff [] []).1 rfl,
   (sqlForPartialUpdate_empty_iff [("a", JSValue.null)] []).2.1
     (List.cons_ne_nil _ _),
   (sqlForPartialUpdate_empty_iff [("b", JSValue.num 0)] []).2.1
     (List.cons_ne_nil _ _),
   (sqlForPartialUpdate_empty_iff [("c", JSValue.str "")] []).2.1
     (List.cons_ne_nil _ _)⟩

/-- C3 counterexample: with translation table `{a: ""}` the key `a` is
present in the table, yet the emitted column is `a` (the key), not the
stored value `""`: `jsToSql[colName] || colName` falls back to the key
for every falsy stored value, so the claim "for every value stored in
it" fails. -/
theorem resolveCol_falsy_cex :
    lookupStr [("a", "")] "a" = some "" ∧
    resolveCol [("a", "")] "a" = "a" ∧
    sqlForPartialUpdate [("a", JSValue.str "x")] [("a", "")] =
      .ok { setCols := "\"a\"=$1", values := [JSValue.str "x"] } ∧
    ("a" : String) ≠ "" :=
  ⟨rfl, rfl, rfl, by decide⟩

/-- C3 amended: the emitted column is `translationTable[K]` whenever `K`
is present with a truthy (non-empty) stored value, and `K` itself when
`K` is absent or its stored value is falsy (the empty string). -/
theorem resolveCol_amended (t : List (String × String)) (k : String) :
    (lookupStr t k = none → resolveCol t k = k) ∧
    (∀ c, lookupStr t k = some c → c ≠ "" → resolveCol t k = c) ∧
    (∀ c, lookupStr t k = some c → c = "" → resolveCol t k = k) ∧
    (∀ keys i, keys.get? i = some k →
      (sqlCols keys t).get? i =
        some ("\"" ++ resolveCol t k ++ "\"=$" ++ toString (i + 1))) := by
  refine ⟨?_, ?_, ?_, ?_⟩
  · intro h
    simp [resolveCol, h]
  · intro c hc hne
    simp [resolveCol, hc, hne]
  · intro c hc hce
    simp [resolveCol, hc, hce]
  · intro keys i hk
    exact sqlCols_get? keys t i k hk

/-- Witness for C3's amended statement: present-and-truthy translates,
absent falls back, present-but-empty falls back. -/
theorem resolveCol_amended_witness :
    resolveCol [("b", "bee")] "a" = "a" ∧
    resolveCol [("a", "bee")] "a" = "bee" ∧
    resolveCol [("a", "")] "a" = "a" :=
  ⟨(resolveCol_amended [("b", "bee")] "a").1 rfl,
   (resolveCol_amended [("a", "bee")] "a").2.1 "bee" rfl (by decide),
   (resolveCol_amended [("a", "")] "a").2.2.1 "" rfl rfl⟩

/-- C4: the fragment at position i (0-based) is
`"<resolvedColumn>"=$<i+1>`, so across the N positions the placeholder
indices are exactly 1..N in order, with no gaps and no repeats, whatever
the translation table. -/
theorem sqlCols_placeholders (keys : List String) (t : List (String × String)) :
    (sqlCols keys t).length = keys.length ∧
    (∀ i k, keys.get? i = some k →
      (sqlCols keys t).get? i =
        some ("\"" ++ resolveCol t k ++ "\"=$" ++ toString (i + 1))) :=
  ⟨sqlCols_length keys t, fun i k hk => sqlCols_get? keys t i k hk⟩

/-- Witness for C4 at a two-key input with a partly translated table. -/
theorem sqlCols_placeholders_witness :
    (sqlCols ["a", "b"] [("a", "col_a")]).length = 2 ∧
    (sqlCols ["a", "b"] [("a", "col_a")]).get? 0 = some "\"col_a\"=$1" ∧
    (sqlCols ["a", "b"] [("a", "col_a")]).get? 1 = some "\"b\"=$2" :=
  ⟨(sqlCols_placeholders ["a", "b"] [("a", "col_a")]).1,
   (sqlCols_placeholders ["a", "b"] [("a", "col_a")]).2 0 "a" rfl,
   (sqlCols_placeholders ["a", "b"] [("a", "col_a")]).2 1 "b" rfl⟩

/-- C5: the concrete example from the test suite: `{firstName: "Miss",
lastName: "Kitty"}` with translation `{firstName: "first_name",
lastName: "last_name"}` yields the two translated fragments joined as
`"first_name"=$1, "last_name"=$2` and the values `["Miss", "Kitty"]`. -/
theorem sqlForPartialUpdate_example :
    sqlCols ["firstName", "lastName"]
        [("firstName", "first_name"), ("lastName", "last_name")] =
      ["\"first_name\"=$1", "\"last_name\"=$2"] ∧
    sqlForPartialUpdate
        [("firstName", JSValue.str "Miss"), ("lastName", JSValue.str "Kitty")]
        [("firstName", "first_name"), ("lastName", "last_name")] =
      .ok { setCols := "\"first_name\"=$1, \"last_name\"=$2",
            values := [JSValue.str "Miss", JSValue.str "Kitty"] } :=
  ⟨rfl, rfl⟩

/-- C6: `sqlForPartialUpdate` is deterministic: two calls on identical
inputs return identical results. The embedding is a pure function of its
two arguments — it reads and writes no other state, so this equality is
the whole behaviour. -/
theorem sqlForPartialUpdate_deterministic (d1 d2 : List (String × JSValue))
    (t1 t2 : List (String × String)) (hd : d1 = d2) (ht : t1 = t2) :
    sqlForPartialUpdate d1 t1 = sqlForPartialUpdate d2 t2 := by
  rw [hd, ht]

/-- Witness for C6 at a concrete repeated call. -/
theorem sqlForPartialUpdate_deterministic_witness :
    sqlForPartialUpdate [("age", JSValue.num 32)] [("age", "age_col")] =
      sqlForPartialUpdate [("age", JSValue.num 32)] [("age", "age_col")] :=
  sqlForPartialUpdate_deterministic _ _ _ _ rfl rfl

/-! ## Claims about the Job and Company models -/

/-- C7: the SQL text of `Job.get`'s lookup query filters the jobs table
on a column named `if`, not `id`: its WHERE clause is `WHERE if = $1`,
so the filter column differs from the id column the query binds. -/
theorem jobsGetQuery_filters_on_if :
    whereColumn jobsGetQuery = some "if" ∧
    containsSub jobsGetQuery.data ("WHERE if = $1".data) = true ∧
    containsSub jobsGetQuery.data ("WHERE id = $1".data) = false ∧
    ("if" : String) ≠ "id" :=
  ⟨rfl, rfl, rfl, by decide⟩

/-- C8: for every database, id and non-empty data object, `Job.update`
destructures `vals` from `sqlForPartialUpdate`'s result, whose only
fields are `setCols` and `values`; `vals` is therefore `undefined`,
`vals.length` throws a `TypeError`, and the trace of issued SQL
statements is empty — the database is never touched. -/
theorem jobUpdate_typeError (db : String → List JSValue → List JSValue)
    (id : JSValue) (data : List (String × JSValue)) (h : data ≠ []) :
    jobUpdate db id data =
      (.error (.typeError "Cannot read properties of undefined (reading 'length')"),
       []) := by
  unfold jobUpdate
  rw [sqlForPartialUpdate_ok data [] h]
  rfl

/-- Witness for C8 at a concrete one-field update. -/
theorem jobUpdate_typeError_witness :
    jobUpdate (fun _ _ => []) (JSValue.num 7) [("title", JSValue.str "x")] =
      (.error (.typeError "Cannot read properties of undefined (reading 'length')"),
       []) :=
  jobUpdate_typeError _ _ _ (List.cons_ne_nil _ _)

/-- C9: for every database and every combination of filters, `Job.findAll`
reassigns its `const query` binding (`query += ...` runs unconditionally
for the ORDER BY clause), so it always throws `TypeError` with an empty
trace: no database query is ever executed and no row list returned. -/
theorem jobFindAll_const_reassignment (db : String → List JSValue → List JSValue)
    (f : JobFilters) :
    jobFindAll db f =
      (.error (.typeError "Assignment to constant variable."), []) := by
  unfold jobFindAll
  cases h1 : jsIsUndefined f.minSalary <;>
    cases h2 : jsStrictTrue f.hasEquity <;>
      cases h3 : jsIsUndefined f.title <;>
        simp [jsAssign]

theorem jsToLowerCase_errors_typeError (v : JSValue) :
    ∀ e, jsToLowerCase v = Except.error e →
      ∀ msg, e ≠ JsErr.badRequest msg := by
  intro e h msg hbad
  subst hbad
  cases v <;> simp [jsToLowerCase] at h

/-- C10: `Company.findByFilters` treats a falsy bound as absent: with a
falsy `minEmployees` (for instance `0`) no `num_employees >=` condition
appears in any issued query, with a falsy `maxEmployees` no
`num_employees <=` condition appears, and the min-exceeds-max
`BadRequestError` validation is skipped whenever either bound is falsy. -/
theorem companyFindByFilters_falsy (db : String → List JSValue → List JSValue)
    (minE maxE nameLike : JSValue) :
    (jsTruthy minE = false →
      ∀ q ∈ (companyFindByFilters db minE maxE nameLike).2,
        containsSub q.data ("num_employees >=".data) = false) ∧
    (jsTruthy maxE = false →
      ∀ q ∈ (companyFindByFilters db minE maxE nameLike).2,
        containsSub q.data ("num_employees <=".data) = false) ∧
    ((jsTruthy minE = false ∨ jsTruthy maxE = false) →
      ∀ msg, (companyFindByFilters db minE maxE nameLike).1 ≠
        Except.error (.badRequest msg)) := by
  unfold companyFindByFilters
  cases h1 : jsTruthy minE <;> cases h2 : jsTruthy maxE <;>
    cases h3 : jsTruthy nameLike <;>
      first
        | (simp +decide [jsGTNum]; done)
        | (cases hlo : jsToLowerCase nameLike <;>
            simp +decide [hlo, jsGTNum, Except.map] <;>
              exact fun msg hmsg =>
                jsToLowerCase_errors_typeError nameLike _ hlo msg hmsg)

/-- Witness for C10: `minEmployees = 0` is treated as absent — the only
issued condition is the max bound, and no `BadRequestError` is raised
even though `parseInt(0) > parseInt(-5)`. -/
theorem companyFindByFilters_falsy_witness :
    jsTruthy (JSValue.num 0) = false ∧
    containsSub
        ("SELECT * FROM companies WHERE 1 = 1 AND num_employees <= $1").data
        ("num_employees >=".data) = false ∧
    (companyFindByFilters (fun _ _ => []) (JSValue.num 0) (JSValue.num (-5))
          JSValue.undefined).1 ≠
      Except.error
        (.badRequest "min employees cannot be greater than max employees") :=
  ⟨rfl,
   (companyFindByFilters_falsy (fun _ _ => []) (JSValue.num 0) (JSValue.num (-5))
       JSValue.undefined).1 rfl
     "SELECT * FROM companies WHERE 1 = 1 AND num_employees <= $1" (by decide),
   (companyFindByFilters_falsy (fun _ _ => []) (JSValue.num 0) (JSValue.num (-5))
       JSValue.undefined).2.2 (Or.inl rfl)
     "min employees cannot be greater than max employees"⟩
